import Mathlib

/-!
Verification development for the soft-serve issue / merge-request workflow
engine.  The Go store layer (package `database`), the backend facade
(package `backend`) and the SQL schema are embedded as pure Lean
functions over explicit table states; SQL UPDATE/INSERT/DELETE statements
become list transformations, `CURRENT_TIMESTAMP` becomes an explicit
`now : Nat` argument, and Go `error` results become `Except`.
-/

namespace SoftServe

/-- The state column of an issue (`models.IssueState`): 0 = open, 1 = closed. -/
inductive IssueState
  | Open
  | Closed
deriving DecidableEq

/-- The state column of a merge request (`models.MergeRequestState`):
0 = open, 1 = merged, 2 = closed. -/
inductive MergeRequestState
  | Open
  | Merged
  | Closed
deriving DecidableEq

/-- A row of the `issues` table (`models.Issue`).  Nullable columns are
`Option`; timestamps are abstract `Nat` instants. -/
structure Issue where
  id : Int
  repoId : Int
  title : String
  description : String
  state : IssueState
  authorId : Int
  closedBy : Option Int
  closedAt : Option Nat
  createdAt : Nat
  updatedAt : Nat
deriving DecidableEq

/-- A row of the `merge_requests` table (`models.MergeRequest`). -/
structure MergeRequest where
  id : Int
  repoId : Int
  title : String
  description : String
  sourceBranch : String
  targetBranch : String
  state : MergeRequestState
  authorId : Int
  mergedBy : Option Int
  mergedAt : Option Nat
  closedBy : Option Int
  closedAt : Option Nat
  createdAt : Nat
  updatedAt : Nat
deriving DecidableEq

/-- A row of the `issue_dependencies` table (`models.IssueDependency`). -/
structure IssueDependency where
  issueId : Int
  dependsOnId : Int
  createdAt : Nat
deriving DecidableEq

/-- Database-level failures surfaced by the store layer: `noRows` is
`sql.ErrNoRows`; the violation constructors are the schema's
`unique_dependency` and `no_self_dependency` constraints firing on insert. -/
inductive DbError
  | noRows
  | uniqueViolation
  | checkViolation
deriving DecidableEq

namespace issueStore

/-- Row effect of the guarded UPDATE in `issueStore.CloseIssue`:
`SET state = Closed, closed_by = ?, closed_at = now, updated_at = now
WHERE repo_id = ? AND id = ? AND state = Open`. -/
def closeIssueRow (repoID id closedBy : Int) (now : Nat) (i : Issue) : Issue :=
  if i.repoId = repoID ∧ i.id = id ∧ i.state = IssueState.Open then
    { i with state := IssueState.Closed, closedBy := some closedBy,
             closedAt := some now, updatedAt := now }
  else i

/-- Row effect of the guarded UPDATE in `issueStore.ReopenIssue`:
`SET state = Open, closed_by = NULL, closed_at = NULL, updated_at = now
WHERE repo_id = ? AND id = ? AND state = Closed`. -/
def reopenIssueRow (repoID id : Int) (now : Nat) (i : Issue) : Issue :=
  if i.repoId = repoID ∧ i.id = id ∧ i.state = IssueState.Closed then
    { i with state := IssueState.Open, closedBy := none,
             closedAt := none, updatedAt := now }
  else i

/-- Row effect of the UPDATE in `issueStore.UpdateIssue`:
`SET title = ?, description = ?, updated_at = now WHERE repo_id = ? AND id = ?`. -/
def updateIssueRow (repoID id : Int) (title description : String) (now : Nat)
    (i : Issue) : Issue :=
  if i.repoId = repoID ∧ i.id = id then
    { i with title := title, description := description, updatedAt := now }
  else i

/-- Number of rows the guarded close UPDATE would match (the rows-affected
count the driver reports and the Go code discards). -/
def closeIssueMatches (tbl : List Issue) (repoID id : Int) : Nat :=
  (tbl.filter fun i =>
    i.repoId = repoID ∧ i.id = id ∧ i.state = IssueState.Open).length

/-- Number of rows the guarded reopen UPDATE would match. -/
def reopenIssueMatches (tbl : List Issue) (repoID id : Int) : Nat :=
  (tbl.filter fun i =>
    i.repoId = repoID ∧ i.id = id ∧ i.state = IssueState.Closed).length

/-- Number of rows `issueStore.UpdateIssue` would match. -/
def updateIssueMatches (tbl : List Issue) (repoID id : Int) : Nat :=
  (tbl.filter fun i => i.repoId = repoID ∧ i.id = id).length

/-- Embeds `issueStore.CloseIssue`: executes the guarded UPDATE with
`_, err := h.ExecContext ...` — the rows-affected count is discarded and,
absent a driver failure, the call reports success unconditionally. -/
def CloseIssue (tbl : List Issue) (repoID id closedBy : Int) (now : Nat) :
    List Issue × Except DbError Unit :=
  (tbl.map (closeIssueRow repoID id closedBy now), Except.ok ())

/-- Embeds `issueStore.ReopenIssue`: guarded UPDATE, rows-affected discarded. -/
def ReopenIssue (tbl : List Issue) (repoID id : Int) (now : Nat) :
    List Issue × Except DbError Unit :=
  (tbl.map (reopenIssueRow repoID id now), Except.ok ())

/-- Embeds `issueStore.UpdateIssue`: plain UPDATE, rows-affected discarded. -/
def UpdateIssue (tbl : List Issue) (repoID id : Int)
    (title description : String) (now : Nat) :
    List Issue × Except DbError Unit :=
  (tbl.map (updateIssueRow repoID id title description now), Except.ok ())

/-- Embeds `issueStore.CreateIssue`: INSERT with `state = Open`, `updated_at = now`;
`nextId` models the autoincrement id returned by `LastInsertId`.  The Go
code performs no validation of the title. -/
def CreateIssue (tbl : List Issue) (nextId repoID authorID : Int)
    (title description : String) (now : Nat) :
    List Issue × Except DbError Int :=
  (tbl ++ [{ id := nextId, repoId := repoID, title := title,
             description := description, state := IssueState.Open,
             authorId := authorID, closedBy := none, closedAt := none,
             createdAt := now, updatedAt := now }],
   Except.ok nextId)

/-- Embeds `issueStore.DeleteIssue`: `DELETE FROM issues WHERE repo_id = ? AND id = ?`. -/
def DeleteIssue (tbl : List Issue) (repoID id : Int) :
    List Issue × Except DbError Unit :=
  (tbl.filter fun i => ¬(i.repoId = repoID ∧ i.id = id), Except.ok ())

/-- Embeds `issueStore.AddIssueDependency`: first counts the issues in `repoID`
whose id is `issueID` or `dependsOnID`; a count other than 2 returns
`sql.ErrNoRows`.  Only then does it INSERT the edge, where the schema's
`no_self_dependency` CHECK and `unique_dependency` UNIQUE constraints
could fire. -/
def AddIssueDependency (issues : List Issue) (deps : List IssueDependency)
    (repoID issueID dependsOnID : Int) (now : Nat) :
    List IssueDependency × Except DbError Unit :=
  let count := (issues.filter fun i =>
    i.repoId = repoID ∧ (i.id = issueID ∨ i.id = dependsOnID)).length
  if count ≠ 2 then (deps, Except.error DbError.noRows)
  else if issueID = dependsOnID then (deps, Except.error DbError.checkViolation)
  else if deps.any fun d => d.issueId = issueID ∧ d.dependsOnId = dependsOnID then
    (deps, Except.error DbError.uniqueViolation)
  else
    (deps ++ [{ issueId := issueID, dependsOnId := dependsOnID, createdAt := now }],
     Except.ok ())

end issueStore

namespace mergeRequestStore

/-- Row effect of the guarded UPDATE in `mergeRequestStore.MergeMergeRequest`:
`SET state = Merged, merged_by = ?, merged_at = now, updated_at = now
WHERE repo_id = ? AND id = ? AND state = Open`. -/
def mergeMRRow (repoID id mergedBy : Int) (now : Nat) (m : MergeRequest) :
    MergeRequest :=
  if m.repoId = repoID ∧ m.id = id ∧ m.state = MergeRequestState.Open then
    { m with state := MergeRequestState.Merged, mergedBy := some mergedBy,
             mergedAt := some now, updatedAt := now }
  else m

/-- Row effect of the guarded UPDATE in `mergeRequestStore.CloseMergeRequest`:
requires `state = Open`; sets `closed_by` and `closed_at`. -/
def closeMRRow (repoID id closedBy : Int) (now : Nat) (m : MergeRequest) :
    MergeRequest :=
  if m.repoId = repoID ∧ m.id = id ∧ m.state = MergeRequestState.Open then
    { m with state := MergeRequestState.Closed, closedBy := some closedBy,
             closedAt := some now, updatedAt := now }
  else m

/-- Row effect of the guarded UPDATE in `mergeRequestStore.ReopenMergeRequest`:
requires `state = Closed`; clears `closed_by` and `closed_at`. -/
def reopenMRRow (repoID id : Int) (now : Nat) (m : MergeRequest) :
    MergeRequest :=
  if m.repoId = repoID ∧ m.id = id ∧ m.state = MergeRequestState.Closed then
    { m with state := MergeRequestState.Open, closedBy := none,
             closedAt := none, updatedAt := now }
  else m

/-- Row effect of the UPDATE in `mergeRequestStore.UpdateMergeRequest`:
`SET title = ?, description = ?, updated_at = now WHERE repo_id = ? AND id = ?`. -/
def updateMRRow (repoID id : Int) (title description : String) (now : Nat)
    (m : MergeRequest) : MergeRequest :=
  if m.repoId = repoID ∧ m.id = id then
    { m with title := title, description := description, updatedAt := now }
  else m

/-- Number of rows the guarded merge UPDATE would match. -/
def mergeMRMatches (tbl : List MergeRequest) (repoID id : Int) : Nat :=
  (tbl.filter fun m =>
    m.repoId = repoID ∧ m.id = id ∧ m.state = MergeRequestState.Open).length

/-- Number of rows the guarded close UPDATE would match. -/
def closeMRMatches (tbl : List MergeRequest) (repoID id : Int) : Nat :=
  (tbl.filter fun m =>
    m.repoId = repoID ∧ m.id = id ∧ m.state = MergeRequestState.Open).length

/-- Number of rows the guarded reopen UPDATE would match. -/
def reopenMRMatches (tbl : List MergeRequest) (repoID id : Int) : Nat :=
  (tbl.filter fun m =>
    m.repoId = repoID ∧ m.id = id ∧ m.state = MergeRequestState.Closed).length

/-- Number of rows `mergeRequestStore.UpdateMergeRequest` would match. -/
def updateMRMatches (tbl : List MergeRequest) (repoID id : Int) : Nat :=
  (tbl.filter fun m => m.repoId = repoID ∧ m.id = id).length

/-- Embeds `mergeRequestStore.MergeMergeRequest`: guarded UPDATE, rows-affected
count discarded (`_, err := h.ExecContext ...`), reports success. -/
def MergeMergeRequest (tbl : List MergeRequest) (repoID id mergedBy : Int)
    (now : Nat) : List MergeRequest × Except DbError Unit :=
  (tbl.map (mergeMRRow repoID id mergedBy now), Except.ok ())

/-- Embeds `mergeRequestStore.CloseMergeRequest`: guarded UPDATE, rows-affected
discarded. -/
def CloseMergeRequest (tbl : List MergeRequest) (repoID id closedBy : Int)
    (now : Nat) : List MergeRequest × Except DbError Unit :=
  (tbl.map (closeMRRow repoID id closedBy now), Except.ok ())

/-- Embeds `mergeRequestStore.ReopenMergeRequest`: guarded UPDATE, rows-affected
discarded. -/
def ReopenMergeRequest (tbl : List MergeRequest) (repoID id : Int)
    (now : Nat) : List MergeRequest × Except DbError Unit :=
  (tbl.map (reopenMRRow repoID id now), Except.ok ())

/-- Embeds `mergeRequestStore.UpdateMergeRequest`: plain UPDATE, rows-affected
discarded. -/
def UpdateMergeRequest (tbl : List MergeRequest) (repoID id : Int)
    (title description : String) (now : Nat) :
    List MergeRequest × Except DbError Unit :=
  (tbl.map (updateMRRow repoID id title description now), Except.ok ())

/-- Embeds `mergeRequestStore.CreateMergeRequest`: INSERT with `state = Open`,
`updated_at = now`; `nextId` models the autoincrement id. -/
def CreateMergeRequest (tbl : List MergeRequest) (nextId repoID authorID : Int)
    (title description sourceBranch targetBranch : String) (now : Nat) :
    List MergeRequest × Except DbError Int :=
  (tbl ++ [{ id := nextId, repoId := repoID, title := title,
             description := description, sourceBranch := sourceBranch,
             targetBranch := targetBranch, state := MergeRequestState.Open,
             authorId := authorID, mergedBy := none, mergedAt := none,
             closedBy := none, closedAt := none,
             createdAt := now, updatedAt := now }],
   Except.ok nextId)

/-- Embeds `mergeRequestStore.GetMergeRequestByID`: `SELECT * FROM merge_requests
WHERE repo_id = ? AND id = ?`; `GetContext` yields the first matching row
or `sql.ErrNoRows`. -/
def GetMergeRequestByID (tbl : List MergeRequest) (repoID id : Int) :
    Except DbError MergeRequest :=
  match tbl.find? fun m => m.repoId = repoID ∧ m.id = id with
  | some m => Except.ok m
  | none => Except.error DbError.noRows

end mergeRequestStore

/-- A git invocation issued by the backend: `git checkout <branch>` or
`git merge [--no-ff] -m <message> <branch>`. -/
inductive GitCmd
  | checkout (branch : String)
  | merge (noFF : Bool) (message : String) (branch : String)
deriving DecidableEq

/-- The external version-control collaborator, as an oracle telling whether a
given git command succeeds in the repository's working tree. -/
structure GitOracle where
  run : GitCmd → Bool

/-- Errors surfaced by the backend facade. -/
inductive BackendError
  | repoNotFound
  | userNotFound
  | branchNotFound (which : String)
  | mergeFailed (msg : String)
  | db (e : DbError)
deriving DecidableEq

namespace Backend

/-- The commit message computed in `performMerge`:
`fmt.Sprintf("Merge branch \x27%s\x27 into \x27%s\x27", sourceBranch, targetBranch)`. -/
def mergeCommitMessage (sourceBranch targetBranch : String) : String :=
  "Merge branch \x27" ++ sourceBranch ++ "\x27 into \x27" ++ targetBranch ++ "\x27"

/-- Embeds `performMerge(repo, sourceBranch, targetBranch, author)`: runs
`git checkout targetBranch`, then `git merge --no-ff -m msg sourceBranch`
with the deterministic commit message; returns the trace of git commands
issued together with the result.  The `author` argument is accepted and, as
in the source, never used. -/
def performMerge (g : GitOracle) (sourceBranch targetBranch author : String) :
    List GitCmd × Except String Unit :=
  let c1 := GitCmd.checkout targetBranch
  if g.run c1 then
    let msg := mergeCommitMessage sourceBranch targetBranch
    let c2 := GitCmd.merge true msg sourceBranch
    if g.run c2 then ([c1, c2], Except.ok ())
    else ([c1, c2], Except.error ("failed to merge branches"))
  else ([c1], Except.error ("failed to checkout target branch"))

/-- Embeds `Backend.MergeMergeRequest`: reads the MR, requires `state = Open`,
performs the external git merge, then applies the guarded store transition.
The two table arguments expose the concurrency seam of the protocol:
`readTbl` is the `merge_requests` table at the initial read (step 1) and
`updateTbl` the table when the final guarded transaction runs (step 3); a
concurrent writer may have changed the row in between.  The store call
discards the rows-affected count, so the function returns `ok` whenever the
git merge succeeded. -/
def MergeMergeRequest (g : GitOracle) (repoID mrID userID : Int)
    (username : String) (readTbl updateTbl : List MergeRequest) (now : Nat) :
    List MergeRequest × Except BackendError Unit :=
  match mergeRequestStore.GetMergeRequestByID readTbl repoID mrID with
  | Except.error e => (updateTbl, Except.error (BackendError.db e))
  | Except.ok mr =>
    if mr.state ≠ MergeRequestState.Open then
      (updateTbl, Except.error (BackendError.mergeFailed ("merge request is not open")))
    else
      match performMerge g mr.sourceBranch mr.targetBranch username with
      | (_, Except.error e) => (updateTbl, Except.error (BackendError.mergeFailed e))
      | (_, Except.ok ()) =>
        match mergeRequestStore.MergeMergeRequest updateTbl repoID mrID userID now with
        | (tbl, Except.ok ()) => (tbl, Except.ok ())
        | (tbl, Except.error e) => (tbl, Except.error (BackendError.db e))

/-- Embeds `Backend.CreateMergeRequest`: resolves the repository and the acting
user, verifies with `ShowRefVerify` that the source branch and then the
target branch exist in the git repository (`branches` is its set of branch
names), and only then inserts the merge request.  No other check is applied
to the branch arguments. -/
def CreateMergeRequest (repo : Option Int) (user : Option Int)
    (branches : List String) (tbl : List MergeRequest) (nextId : Int)
    (title description sourceBranch targetBranch : String) (now : Nat) :
    List MergeRequest × Except BackendError Int :=
  match repo with
  | none => (tbl, Except.error BackendError.repoNotFound)
  | some repoID =>
    match user with
    | none => (tbl, Except.error BackendError.userNotFound)
    | some userID =>
      if sourceBranch ∉ branches then
        (tbl, Except.error (BackendError.branchNotFound sourceBranch))
      else if targetBranch ∉ branches then
        (tbl, Except.error (BackendError.branchNotFound targetBranch))
      else
        match mergeRequestStore.CreateMergeRequest tbl nextId repoID userID
            title description sourceBranch targetBranch now with
        | (tbl', Except.ok id) => (tbl', Except.ok id)
        | (tbl', Except.error e) => (tbl', Except.error (BackendError.db e))

/-- Embeds `Backend.CreateIssue`: resolves the repository and the acting user and
delegates to `issueStore.CreateIssue`.  Neither layer validates the title. -/
def CreateIssue (repo : Option Int) (user : Option Int) (tbl : List Issue)
    (nextId : Int) (title description : String) (now : Nat) :
    List Issue × Except BackendError Int :=
  match repo with
  | none => (tbl, Except.error BackendError.repoNotFound)
  | some repoID =>
    match user with
    | none => (tbl, Except.error BackendError.userNotFound)
    | some userID =>
      match issueStore.CreateIssue tbl nextId repoID userID title description now with
      | (tbl', Except.ok id) => (tbl', Except.ok id)
      | (tbl', Except.error e) => (tbl', Except.error (BackendError.db e))

end Backend

/-- The persistent database state relevant to the cascade schema: the set of
repository ids plus the three entity tables. -/
structure Db where
  repos : List Int
  issues : List Issue
  mergeRequests : List MergeRequest
  deps : List IssueDependency
deriving DecidableEq

namespace Db

/-- Referential integrity as the schema's foreign keys state it: every issue
and merge request references an existing repository row, and every
dependency edge references existing issue rows. -/
def integrity (db : Db) : Prop :=
  (∀ i ∈ db.issues, i.repoId ∈ db.repos) ∧
  (∀ m ∈ db.mergeRequests, m.repoId ∈ db.repos) ∧
  (∀ d ∈ db.deps, (∃ i ∈ db.issues, i.id = d.issueId) ∧
                  (∃ i ∈ db.issues, i.id = d.dependsOnId))

instance (db : Db) : Decidable db.integrity := by
  unfold integrity; infer_instance

/-- Deleting a repository row under the schema's `ON DELETE CASCADE`
constraints: the `issues.repo_id_fk` and `merge_requests.repo_id_fk`
cascades remove every issue and merge request of the repository, and the
`issue_dependencies.issue_id_fk` / `depends_on_id_fk` cascades then remove
every edge that referenced a deleted issue row. -/
def deleteRepoCascade (db : Db) (repoID : Int) : Db :=
  let deleted : Int → Bool := fun issueId =>
    db.issues.any fun i => i.id = issueId ∧ i.repoId = repoID
  { repos := db.repos.filter fun r => r ≠ repoID
    issues := db.issues.filter fun i => i.repoId ≠ repoID
    mergeRequests := db.mergeRequests.filter fun m => m.repoId ≠ repoID
    deps := db.deps.filter fun d => ¬ deleted d.issueId ∧ ¬ deleted d.dependsOnId }

end Db

/-! Concrete fixtures used by witnesses and counterexamples. -/

/-- An open issue with id 1 in repository 1. -/
def openIssue1 : Issue :=
  { id := 1, repoId := 1, title := ("a"), description := ("b"),
    state := IssueState.Open, authorId := 2, closedBy := none,
    closedAt := none, createdAt := 1, updatedAt := 1 }

/-- A closed issue with id 1 in repository 1. -/
def closedIssue1 : Issue :=
  { id := 1, repoId := 1, title := ("a"), description := ("b"),
    state := IssueState.Closed, authorId := 2, closedBy := some 2,
    closedAt := some 3, createdAt := 1, updatedAt := 3 }

/-- An open merge request with id 1 in repository 1. -/
def mrOpen1 : MergeRequest :=
  { id := 1, repoId := 1, title := ("t"), description := ("d"),
    sourceBranch := ("feature"), targetBranch := ("main"),
    state := MergeRequestState.Open, authorId := 2, mergedBy := none,
    mergedAt := none, closedBy := none, closedAt := none,
    createdAt := 1, updatedAt := 1 }

/-- The same merge request after a concurrent close: id 1, repository 1,
state Closed. -/
def mrClosed1 : MergeRequest :=
  { mrOpen1 with state := MergeRequestState.Closed,
                 closedBy := some 3, closedAt := some 4, updatedAt := 4 }

/-- The same merge request in the terminal Merged state. -/
def mrMerged1 : MergeRequest :=
  { mrOpen1 with state := MergeRequestState.Merged,
                 mergedBy := some 2, mergedAt := some 4, updatedAt := 4 }

/-- A git collaborator for which every command succeeds. -/
def gitAllOk : GitOracle := { run := fun _ => true }

/-- A small database with one repository, one issue and one merge request. -/
def db0 : Db :=
  { repos := [1], issues := [openIssue1], mergeRequests := [mrOpen1], deps := [] }

/-! Helper lemmas shared by the claim theorems. -/

/-- A map whose function fixes every element of the list is the identity. -/
theorem map_eq_self_of_fixed {α : Type} (f : α → α) (l : List α)
    (h : ∀ x ∈ l, f x = x) : l.map f = l := by
  induction l with
  | nil => rfl
  | cons a t ih =>
    simp only [List.map_cons, List.cons.injEq]
    exact ⟨h a (List.mem_cons_self a t), ih fun x hx => h x (List.mem_cons_of_mem a hx)⟩

/-- A zero-length decidable filter means no element satisfies the predicate. -/
theorem not_of_filter_length_zero {α : Type} (p : α → Prop) [DecidablePred p]
    (l : List α) (h : (l.filter fun x => p x).length = 0) :
    ∀ x ∈ l, ¬ p x := by
  intro x hx hpx
  have hnil : (l.filter fun x => p x) = [] := List.length_eq_zero.mp h
  have : x ∈ (l.filter fun x => p x) := by
    rw [List.mem_filter]
    exact ⟨hx, by simpa using hpx⟩
  rw [hnil] at this
  exact absurd this (List.not_mem_nil x)

/-- In a list whose key values are pairwise distinct, a filter by a predicate
that pins the key to one value keeps at most one element. -/
theorem filter_length_le_one_of_key {α : Type} (key : α → Int) (a : Int)
    (l : List α) (hp : l.Pairwise fun x y => key x ≠ key y)
    (p : α → Prop) [DecidablePred p] (himp : ∀ x, p x → key x = a) :
    (l.filter fun x => p x).length ≤ 1 := by
  induction l with
  | nil => simp
  | cons x t ih =>
    have hpt : t.Pairwise fun x y => key x ≠ key y := (List.pairwise_cons.mp hp).2
    have hx : ∀ y ∈ t, key x ≠ key y := (List.pairwise_cons.mp hp).1
    by_cases hpx : p x
    · have : (t.filter fun y => p y) = [] := by
        rw [List.filter_eq_nil_iff]
        intro y hy
        simp only [decide_eq_true_eq]
        intro hpy
        exact hx y hy (by rw [himp x hpx, himp y hpy])
      simp [hpx, this]
    · simpa [hpx] using ih hpt

/-- C1: the claim that a guarded transition matching zero rows returns an
InvalidState failure is false on the code: closing the already-Closed issue
`closedIssue1` and reopening the already-Open issue `openIssue1` both match
zero rows yet return success and leave the table unchanged. -/
theorem C1_counterexample :
    issueStore.closeIssueMatches [closedIssue1] 1 1 = 0 ∧
    issueStore.CloseIssue [closedIssue1] 1 1 2 5 = ([closedIssue1], Except.ok ()) ∧
    issueStore.reopenIssueMatches [openIssue1] 1 1 = 0 ∧
    issueStore.ReopenIssue [openIssue1] 1 1 5 = ([openIssue1], Except.ok ()) :=
  ⟨rfl, rfl, rfl, rfl⟩

/-- C1 amended: for every guarded transition (close/reopen an issue,
close/reopen/merge a merge request), when the conditional update matches
zero rows the operation reports success and leaves the table unchanged — a
silent no-op, never an InvalidState failure. -/
theorem C1_amended (itbl : List Issue) (mtbl : List MergeRequest)
    (repoID id actor : Int) (now : Nat) :
    (issueStore.closeIssueMatches itbl repoID id = 0 →
      issueStore.CloseIssue itbl repoID id actor now = (itbl, Except.ok ())) ∧
    (issueStore.reopenIssueMatches itbl repoID id = 0 →
      issueStore.ReopenIssue itbl repoID id now = (itbl, Except.ok ())) ∧
    (mergeRequestStore.closeMRMatches mtbl repoID id = 0 →
      mergeRequestStore.CloseMergeRequest mtbl repoID id actor now = (mtbl, Except.ok ())) ∧
    (mergeRequestStore.reopenMRMatches mtbl repoID id = 0 →
      mergeRequestStore.ReopenMergeRequest mtbl repoID id now = (mtbl, Except.ok ())) ∧
    (mergeRequestStore.mergeMRMatches mtbl repoID id = 0 →
      mergeRequestStore.MergeMergeRequest mtbl repoID id actor now = (mtbl, Except.ok ())) := by
  refine ⟨fun h => ?_, fun h => ?_, fun h => ?_, fun h => ?_, fun h => ?_⟩
  · have hno := not_of_filter_length_zero
      (fun x : Issue => x.repoId = repoID ∧ x.id = id ∧ x.state = IssueState.Open) itbl h
    simp only [issueStore.CloseIssue, Prod.mk.injEq]
    refine ⟨map_eq_self_of_fixed _ _ fun x hx => ?_, trivial⟩
    exact if_neg (hno x hx)
  · have hno := not_of_filter_length_zero
      (fun x : Issue => x.repoId = repoID ∧ x.id = id ∧ x.state = IssueState.Closed) itbl h
    simp only [issueStore.ReopenIssue, Prod.mk.injEq]
    refine ⟨map_eq_self_of_fixed _ _ fun x hx => ?_, trivial⟩
    exact if_neg (hno x hx)
  · have hno := not_of_filter_length_zero
      (fun x : MergeRequest =>
        x.repoId = repoID ∧ x.id = id ∧ x.state = MergeRequestState.Open) mtbl h
    simp only [mergeRequestStore.CloseMergeRequest, Prod.mk.injEq]
    refine ⟨map_eq_self_of_fixed _ _ fun x hx => ?_, trivial⟩
    exact if_neg (hno x hx)
  · have hno := not_of_filter_length_zero
      (fun x : MergeRequest =>
        x.repoId = repoID ∧ x.id = id ∧ x.state = MergeRequestState.Closed) mtbl h
    simp only [mergeRequestStore.ReopenMergeRequest, Prod.mk.injEq]
    refine ⟨map_eq_self_of_fixed _ _ fun x hx => ?_, trivial⟩
    exact if_neg (hno x hx)
  · have hno := not_of_filter_length_zero
      (fun x : MergeRequest =>
        x.repoId = repoID ∧ x.id = id ∧ x.state = MergeRequestState.Open) mtbl h
    simp only [mergeRequestStore.MergeMergeRequest, Prod.mk.injEq]
    refine ⟨map_eq_self_of_fixed _ _ fun x hx => ?_, trivial⟩
    exact if_neg (hno x hx)

/-- C1 amended, witnessed on a terminal merge request: close, reopen and
merge on the already-Merged `mrMerged1` all match zero rows and all
silently succeed without touching the table. -/
theorem C1_amended_witness :
    issueStore.CloseIssue [] 1 1 2 9 = ([], Except.ok ()) ∧
    issueStore.ReopenIssue [] 1 1 9 = ([], Except.ok ()) ∧
    mergeRequestStore.CloseMergeRequest [mrMerged1] 1 1 2 9 = ([mrMerged1], Except.ok ()) ∧
    mergeRequestStore.ReopenMergeRequest [mrMerged1] 1 1 9 = ([mrMerged1], Except.ok ()) ∧
    mergeRequestStore.MergeMergeRequest [mrMerged1] 1 1 2 9 = ([mrMerged1], Except.ok ()) := by
  have h := C1_amended [] [mrMerged1] 1 1 2 9
  exact ⟨h.1 (by decide), h.2.1 (by decide), h.2.2.1 (by decide),
         h.2.2.2.1 (by decide), h.2.2.2.2 (by decide)⟩

/-- C2: the claim that a merge whose external step succeeded but whose
guarded commit matched zero rows returns a distinct Unrecorded failure is
false on the code: with the MR read as Open but concurrently Closed at
commit time, `Backend.MergeMergeRequest` matches zero rows, leaves the
table unchanged, and still returns plain success. -/
theorem C2_counterexample :
    mergeRequestStore.mergeMRMatches [mrClosed1] 1 1 = 0 ∧
    (Backend.performMerge gitAllOk mrOpen1.sourceBranch mrOpen1.targetBranch ("u")).snd =
      Except.ok () ∧
    Backend.MergeMergeRequest gitAllOk 1 1 2 ("u") [mrOpen1] [mrClosed1] 5 =
      ([mrClosed1], Except.ok ()) :=
  ⟨rfl, rfl, rfl⟩

/-- C2 amended: when the initial read finds the merge request Open, the
external git merge succeeds, and the guarded Open → Merged update then
matches zero rows (the state changed concurrently), the operation returns
plain success and the completed merge is not recorded in the table — no
distinct Unrecorded failure exists. -/
theorem C2_amended (g : GitOracle) (repoID mrID userID : Int) (username : String)
    (readTbl updateTbl : List MergeRequest) (now : Nat) (mr : MergeRequest)
    (hread : mergeRequestStore.GetMergeRequestByID readTbl repoID mrID = Except.ok mr)
    (hopen : mr.state = MergeRequestState.Open)
    (hgit : (Backend.performMerge g mr.sourceBranch mr.targetBranch username).snd =
      Except.ok ())
    (hzero : mergeRequestStore.mergeMRMatches updateTbl repoID mrID = 0) :
    Backend.MergeMergeRequest g repoID mrID userID username readTbl updateTbl now =
      (updateTbl, Except.ok ()) := by
  have hno := not_of_filter_length_zero
    (fun x : MergeRequest =>
      x.repoId = repoID ∧ x.id = mrID ∧ x.state = MergeRequestState.Open) updateTbl hzero
  have hmap : updateTbl.map (mergeRequestStore.mergeMRRow repoID mrID userID now) = updateTbl :=
    map_eq_self_of_fixed _ _ fun x hx => if_neg (hno x hx)
  rcases hpm : Backend.performMerge g mr.sourceBranch mr.targetBranch username with ⟨cmds, res⟩
  rw [hpm] at hgit
  simp only at hgit
  subst hgit
  simp [Backend.MergeMergeRequest, hread, hopen, hpm,
        mergeRequestStore.MergeMergeRequest, hmap]

/-- C2 amended, witnessed: the MR is read Open, the git merge succeeds, but
at commit time the row is already Merged; the call still returns success
with the table unchanged. -/
theorem C2_amended_witness :
    Backend.MergeMergeRequest gitAllOk 1 1 2 ("u") [mrOpen1] [mrMerged1] 5 =
      ([mrMerged1], Except.ok ()) :=
  C2_amended gitAllOk 1 1 2 ("u") [mrOpen1] [mrMerged1] 5 mrOpen1
    rfl rfl rfl rfl

/-- C3: the claim that the merge commit message identifies the acting user
is false on the code: `performMerge` produces identical git commands and
identical commit messages for the distinct acting users alice and bob. -/
theorem C3_counterexample :
    Backend.performMerge gitAllOk ("feature") ("main") ("alice") =
      Backend.performMerge gitAllOk ("feature") ("main") ("bob") ∧
    ("alice" : String) ≠ ("bob" : String) :=
  ⟨rfl, by decide⟩

/-- C3 amended: a successful `performMerge` checks out the target branch,
then merges the source branch with `--no-ff` and a deterministic commit
message containing the source and target branch names; the result is
independent of the acting user, who is not identified in the message. -/
theorem C3_amended (g : GitOracle) (sourceBranch targetBranch author : String)
    (hco : g.run (GitCmd.checkout targetBranch) = true)
    (hmg : g.run (GitCmd.merge true
      (Backend.mergeCommitMessage sourceBranch targetBranch) sourceBranch) = true) :
    Backend.performMerge g sourceBranch targetBranch author =
      ([GitCmd.checkout targetBranch,
        GitCmd.merge true (Backend.mergeCommitMessage sourceBranch targetBranch) sourceBranch],
       Except.ok ()) ∧
    (∃ pre post, Backend.mergeCommitMessage sourceBranch targetBranch =
      pre ++ sourceBranch ++ post) ∧
    (∃ pre post, Backend.mergeCommitMessage sourceBranch targetBranch =
      pre ++ targetBranch ++ post) ∧
    (∀ a b : String, Backend.performMerge g sourceBranch targetBranch a =
      Backend.performMerge g sourceBranch targetBranch b) := by
  refine ⟨?_, ?_, ?_, fun a b => rfl⟩
  · unfold Backend.performMerge
    rw [if_pos hco, if_pos hmg]
  · exact ⟨("Merge branch \x27"),
      ("\x27 into \x27") ++ targetBranch ++ ("\x27"),
      by simp [Backend.mergeCommitMessage, String.append_assoc]⟩
  · exact ⟨("Merge branch \x27") ++ sourceBranch ++ ("\x27 into \x27"),
      ("\x27"),
      by simp [Backend.mergeCommitMessage, String.append_assoc]⟩

/-- C3 amended, witnessed at concrete branches and an all-succeeding git
collaborator. -/
theorem C3_amended_witness :
    Backend.performMerge gitAllOk ("feature") ("main") ("alice") =
      ([GitCmd.checkout ("main"),
        GitCmd.merge true (Backend.mergeCommitMessage ("feature") ("main")) ("feature")],
       Except.ok ()) :=
  (C3_amended gitAllOk ("feature") ("main") ("alice") rfl rfl).1

/-- C4: the claim that update fails NotFound when zero rows match is false
on the code: updating a non-existent issue or merge request (empty table)
matches zero rows yet returns success. -/
theorem C4_counterexample :
    issueStore.updateIssueMatches [] 1 1 = 0 ∧
    issueStore.UpdateIssue [] 1 1 ("t") ("d") 5 = ([], Except.ok ()) ∧
    mergeRequestStore.updateMRMatches [] 1 1 = 0 ∧
    mergeRequestStore.UpdateMergeRequest [] 1 1 ("t") ("d") 5 = ([], Except.ok ()) :=
  ⟨rfl, rfl, rfl, rfl⟩

/-- C4 amended: when no row matches both repoId and id the update succeeds
as a silent no-op (no NotFound failure); when a row does match, it rewrites
only title and description and bumps updatedAt, leaving every other field
unchanged. -/
theorem C4_amended (itbl : List Issue) (mtbl : List MergeRequest)
    (repoID id : Int) (title description : String) (now : Nat) :
    (issueStore.updateIssueMatches itbl repoID id = 0 →
      issueStore.UpdateIssue itbl repoID id title description now =
        (itbl, Except.ok ())) ∧
    (mergeRequestStore.updateMRMatches mtbl repoID id = 0 →
      mergeRequestStore.UpdateMergeRequest mtbl repoID id title description now =
        (mtbl, Except.ok ())) ∧
    (∀ i : Issue, i.repoId = repoID → i.id = id →
      issueStore.updateIssueRow repoID id title description now i =
        { i with title := title, description := description, updatedAt := now }) ∧
    (∀ m : MergeRequest, m.repoId = repoID → m.id = id →
      mergeRequestStore.updateMRRow repoID id title description now m =
        { m with title := title, description := description, updatedAt := now }) := by
  refine ⟨fun h => ?_, fun h => ?_, fun i h1 h2 => ?_, fun m h1 h2 => ?_⟩
  · have hno := not_of_filter_length_zero
      (fun x : Issue => x.repoId = repoID ∧ x.id = id) itbl h
    simp only [issueStore.UpdateIssue, Prod.mk.injEq]
    refine ⟨map_eq_self_of_fixed _ _ fun x hx => ?_, trivial⟩
    exact if_neg (hno x hx)
  · have hno := not_of_filter_length_zero
      (fun x : MergeRequest => x.repoId = repoID ∧ x.id = id) mtbl h
    simp only [mergeRequestStore.UpdateMergeRequest, Prod.mk.injEq]
    refine ⟨map_eq_self_of_fixed _ _ fun x hx => ?_, trivial⟩
    exact if_neg (hno x hx)
  · exact if_pos ⟨h1, h2⟩
  · exact if_pos ⟨h1, h2⟩

/-- C4 amended, witnessed: a no-op update on an absent id succeeds, and a
matching update rewrites exactly the mutable fields of `openIssue1`. -/
theorem C4_amended_witness :
    issueStore.UpdateIssue [openIssue1] 1 2 ("t") ("d") 7 =
      ([openIssue1], Except.ok ()) ∧
    issueStore.updateIssueRow 1 1 ("t") ("d") 7 openIssue1 =
      { openIssue1 with title := ("t"), description := ("d"), updatedAt := 7 } := by
  have h1 := C4_amended [openIssue1] [] 1 2 ("t") ("d") 7
  have h2 := C4_amended [openIssue1] [] 1 1 ("t") ("d") 7
  exact ⟨h1.1 (by decide), h2.2.2.1 openIssue1 rfl rfl⟩

/-- C5: the claim that creating an issue with an empty title fails with
InvalidArgument and inserts nothing is false on the code: the empty title
is inserted and the generated id returned. -/
theorem C5_counterexample :
    Backend.CreateIssue (some 1) (some 2) [] 1 ("") ("d") 5 =
      ([{ id := 1, repoId := 1, title := (""), description := ("d"),
          state := IssueState.Open, authorId := 2, closedBy := none,
          closedAt := none, createdAt := 5, updatedAt := 5 }],
       Except.ok 1) :=
  rfl

/-- C5 amended: once the repository and the acting user resolve, create
inserts unconditionally — no title validation exists, the empty string
included — with initial state Open, null audit fields, and returns the
generated id. -/
theorem C5_amended (repoID userID : Int) (tbl : List Issue) (nextId : Int)
    (title description : String) (now : Nat) :
    Backend.CreateIssue (some repoID) (some userID) tbl nextId title description now =
      (tbl ++ [{ id := nextId, repoId := repoID, title := title,
                 description := description, state := IssueState.Open,
                 authorId := userID, closedBy := none, closedAt := none,
                 createdAt := now, updatedAt := now }],
       Except.ok nextId) :=
  rfl

/-- C6: the claim that a self-dependency fails with InvalidArgument (as
opposed to NotFound) is false on the code: with issue 1 existing in
repository 1, `AddIssueDependency 1 1 1` returns the no-rows error of the
existence count check, which is a NotFound, not the check-constraint
violation. -/
theorem C6_counterexample :
    issueStore.AddIssueDependency [openIssue1] [] 1 1 1 5 =
      ([], Except.error DbError.noRows) ∧
    DbError.noRows ≠ DbError.checkViolation :=
  ⟨rfl, by decide⟩

/-- C6 amended: for every issues table whose ids are pairwise distinct (the
primary-key invariant), a self-dependency request always fails with the
no-rows (NotFound) error from the count-both-endpoints check — the
`no_self_dependency` CHECK constraint is never reached. -/
theorem C6_amended (issues : List Issue) (deps : List IssueDependency)
    (repoID issueID : Int) (now : Nat)
    (hids : issues.Pairwise fun a b => a.id ≠ b.id) :
    issueStore.AddIssueDependency issues deps repoID issueID issueID now =
      (deps, Except.error DbError.noRows) := by
  have hle : ((issues.filter fun i =>
      i.repoId = repoID ∧ (i.id = issueID ∨ i.id = issueID)).length ≤ 1) :=
    filter_length_le_one_of_key (fun i => i.id) issueID issues hids _
      (fun x hx => by rcases hx with ⟨-, h | h⟩ <;> exact h)
  have hne : ((issues.filter fun i =>
      i.repoId = repoID ∧ (i.id = issueID ∨ i.id = issueID)).length ≠ 2) := by
    omega
  unfold issueStore.AddIssueDependency
  simp only []
  rw [if_pos hne]

/-- C6 amended, witnessed on a singleton table with a distinct id pair. -/
theorem C6_amended_witness :
    issueStore.AddIssueDependency [openIssue1] [] 1 2 2 5 =
      ([], Except.error DbError.noRows) :=
  C6_amended [openIssue1] [] 1 2 5 (by simp)

/-- C7: Merged is terminal.  For a merge request row in state Merged, the
close, reopen and merge updates leave the row untouched and the plain
update preserves state, mergedBy and mergedAt; moreover close, reopen and
update never touch mergedBy/mergedAt on any row, and the merge update only
fires on an Open row — so mergedBy/mergedAt are written exactly once, by
the Open → Merged transition, and never cleared or overwritten. -/
theorem C7_merged_terminal (m : MergeRequest) (repoID id actor : Int)
    (title description : String) (now : Nat) :
    (m.state = MergeRequestState.Merged →
      mergeRequestStore.closeMRRow repoID id actor now m = m ∧
      mergeRequestStore.reopenMRRow repoID id now m = m ∧
      mergeRequestStore.mergeMRRow repoID id actor now m = m ∧
      (mergeRequestStore.updateMRRow repoID id title description now m).state =
        MergeRequestState.Merged) ∧
    ((mergeRequestStore.closeMRRow repoID id actor now m).mergedBy = m.mergedBy ∧
     (mergeRequestStore.closeMRRow repoID id actor now m).mergedAt = m.mergedAt) ∧
    ((mergeRequestStore.reopenMRRow repoID id now m).mergedBy = m.mergedBy ∧
     (mergeRequestStore.reopenMRRow repoID id now m).mergedAt = m.mergedAt) ∧
    ((mergeRequestStore.updateMRRow repoID id title description now m).mergedBy =
        m.mergedBy ∧
     (mergeRequestStore.updateMRRow repoID id title description now m).mergedAt =
        m.mergedAt) ∧
    (m.state ≠ MergeRequestState.Open →
      mergeRequestStore.mergeMRRow repoID id actor now m = m) := by
  refine ⟨fun hm => ?_, ?_, ?_, ?_, fun hno => ?_⟩
  · refine ⟨?_, ?_, ?_, ?_⟩
    · exact if_neg (by rintro ⟨-, -, h⟩; rw [hm] at h; exact absurd h (by decide))
    · exact if_neg (by rintro ⟨-, -, h⟩; rw [hm] at h; exact absurd h (by decide))
    · exact if_neg (by rintro ⟨-, -, h⟩; rw [hm] at h; exact absurd h (by decide))
    · unfold mergeRequestStore.updateMRRow
      by_cases h : m.repoId = repoID ∧ m.id = id <;> simp [h, hm]
  · unfold mergeRequestStore.closeMRRow
    by_cases h : m.repoId = repoID ∧ m.id = id ∧ m.state = MergeRequestState.Open <;>
      simp [h]
  · unfold mergeRequestStore.reopenMRRow
    by_cases h : m.repoId = repoID ∧ m.id = id ∧ m.state = MergeRequestState.Closed <;>
      simp [h]
  · unfold mergeRequestStore.updateMRRow
    by_cases h : m.repoId = repoID ∧ m.id = id <;> simp [h]
  · exact if_neg (by rintro ⟨-, -, h⟩; exact hno h)

/-- C7, witnessed on the terminal merge request `mrMerged1`. -/
theorem C7_merged_terminal_witness :
    mergeRequestStore.closeMRRow 1 1 3 9 mrMerged1 = mrMerged1 ∧
    mergeRequestStore.reopenMRRow 1 1 9 mrMerged1 = mrMerged1 ∧
    mergeRequestStore.mergeMRRow 1 1 3 9 mrMerged1 = mrMerged1 ∧
    (mergeRequestStore.updateMRRow 1 1 ("t") ("d") 9 mrMerged1).state =
      MergeRequestState.Merged := by
  have h := (C7_merged_terminal mrMerged1 1 1 3 ("t") ("d") 9).1 rfl
  exact ⟨h.1, h.2.1, h.2.2.1, h.2.2.2⟩

/-- C8: round-trip.  For any issue row that is Open and addressed by repoId
and id, applying the close row update and then the reopen row update yields
state Open with closedBy and closedAt both null; at the table level the
close-then-reopen pipeline is the map of that row composition. -/
theorem C8_close_reopen_roundtrip (tbl : List Issue) (repoID id actor : Int)
    (t1 t2 : Nat) (i : Issue)
    (hrepo : i.repoId = repoID) (hid : i.id = id)
    (hopen : i.state = IssueState.Open) :
    (issueStore.reopenIssueRow repoID id t2
        (issueStore.closeIssueRow repoID id actor t1 i)).state = IssueState.Open ∧
    (issueStore.reopenIssueRow repoID id t2
        (issueStore.closeIssueRow repoID id actor t1 i)).closedBy = none ∧
    (issueStore.reopenIssueRow repoID id t2
        (issueStore.closeIssueRow repoID id actor t1 i)).closedAt = none ∧
    (issueStore.ReopenIssue (issueStore.CloseIssue tbl repoID id actor t1).fst
        repoID id t2).fst =
      tbl.map fun x => issueStore.reopenIssueRow repoID id t2
        (issueStore.closeIssueRow repoID id actor t1 x) := by
  have hrow : issueStore.closeIssueRow repoID id actor t1 i =
      { i with state := IssueState.Closed, closedBy := some actor,
               closedAt := some t1, updatedAt := t1 } :=
    if_pos ⟨hrepo, hid, hopen⟩
  refine ⟨?_, ?_, ?_, ?_⟩
  · rw [hrow]
    unfold issueStore.reopenIssueRow
    rw [if_pos ⟨hrepo, hid, rfl⟩]
  · rw [hrow]
    unfold issueStore.reopenIssueRow
    rw [if_pos ⟨hrepo, hid, rfl⟩]
  · rw [hrow]
    unfold issueStore.reopenIssueRow
    rw [if_pos ⟨hrepo, hid, rfl⟩]
  · simp [issueStore.CloseIssue, issueStore.ReopenIssue, List.map_map,
          Function.comp]

/-- C8, witnessed on `openIssue1`: closing then reopening restores the
open-state audit fields. -/
theorem C8_close_reopen_roundtrip_witness :
    (issueStore.reopenIssueRow 1 1 4
        (issueStore.closeIssueRow 1 1 7 3 openIssue1)).state = IssueState.Open ∧
    (issueStore.reopenIssueRow 1 1 4
        (issueStore.closeIssueRow 1 1 7 3 openIssue1)).closedBy = none ∧
    (issueStore.reopenIssueRow 1 1 4
        (issueStore.closeIssueRow 1 1 7 3 openIssue1)).closedAt = none := by
  have h := C8_close_reopen_roundtrip [openIssue1] 1 1 7 3 4 openIssue1 rfl rfl rfl
  exact ⟨h.1, h.2.1, h.2.2.1⟩

/-- C9: merge-request creation never requires the source and target
branches to differ.  When the repository and user resolve and branch b
exists, creating with sourceBranch = targetBranch = b passes both
existence checks, inserts the merge request, and returns the generated
id. -/
theorem C9_same_branch_create (repoID userID : Int) (branches : List String)
    (tbl : List MergeRequest) (nextId : Int) (title description b : String)
    (now : Nat) (hb : b ∈ branches) :
    Backend.CreateMergeRequest (some repoID) (some userID) branches tbl nextId
        title description b b now =
      (tbl ++ [{ id := nextId, repoId := repoID, title := title,
                 description := description, sourceBranch := b,
                 targetBranch := b, state := MergeRequestState.Open,
                 authorId := userID, mergedBy := none, mergedAt := none,
                 closedBy := none, closedAt := none,
                 createdAt := now, updatedAt := now }],
       Except.ok nextId) := by
  simp [Backend.CreateMergeRequest, hb, mergeRequestStore.CreateMergeRequest]

/-- C9, witnessed: source and target both equal to the sole branch main. -/
theorem C9_same_branch_create_witness :
    Backend.CreateMergeRequest (some 1) (some 2) [("main")] [] 1
        ("t") ("d") ("main") ("main") 5 =
      ([{ id := 1, repoId := 1, title := ("t"), description := ("d"),
          sourceBranch := ("main"), targetBranch := ("main"),
          state := MergeRequestState.Open, authorId := 2,
          mergedBy := none, mergedAt := none, closedBy := none,
          closedAt := none, createdAt := 5, updatedAt := 5 }],
       Except.ok 1) :=
  C9_same_branch_create 1 2 [("main")] [] 1 ("t") ("d") ("main") 5
    (by simp)

/-- C10: the schema's ON DELETE CASCADE constraints make repository
deletion remove every issue and merge request of that repository and every
dependency edge touching a deleted issue, and they preserve referential
integrity: afterwards no surviving issue, merge request, or edge references
a missing repository or issue row. -/
theorem C10_delete_repo_cascade (db : Db) (repoID : Int) (h : db.integrity) :
    (db.deleteRepoCascade repoID).integrity ∧
    repoID ∉ (db.deleteRepoCascade repoID).repos ∧
    (∀ i ∈ (db.deleteRepoCascade repoID).issues, i.repoId ≠ repoID) ∧
    (∀ m ∈ (db.deleteRepoCascade repoID).mergeRequests, m.repoId ≠ repoID) := by
  obtain ⟨hI, hM, hD⟩ := h
  refine ⟨⟨?_, ?_, ?_⟩, ?_, ?_, ?_⟩
  · intro i hi
    rw [Db.deleteRepoCascade, List.mem_filter] at hi
    rw [Db.deleteRepoCascade, List.mem_filter]
    exact ⟨hI i hi.1, hi.2⟩
  · intro m hm
    rw [Db.deleteRepoCascade, List.mem_filter] at hm
    rw [Db.deleteRepoCascade, List.mem_filter]
    exact ⟨hM m hm.1, hm.2⟩
  · intro d hd
    rw [Db.deleteRepoCascade, List.mem_filter] at hd
    obtain ⟨hdmem, hdkeep⟩ := hd
    rw [decide_eq_true_eq] at hdkeep
    obtain ⟨hk1, hk2⟩ := hdkeep
    obtain ⟨⟨i1, hi1, hi1id⟩, ⟨i2, hi2, hi2id⟩⟩ := hD d hdmem
    constructor
    · refine ⟨i1, ?_, hi1id⟩
      rw [Db.deleteRepoCascade, List.mem_filter]
      refine ⟨hi1, ?_⟩
      rw [decide_eq_true_eq]
      intro hrep
      exact hk1 (List.any_eq_true.mpr ⟨i1, hi1, by simp [hi1id, hrep]⟩)
    · refine ⟨i2, ?_, hi2id⟩
      rw [Db.deleteRepoCascade, List.mem_filter]
      refine ⟨hi2, ?_⟩
      rw [decide_eq_true_eq]
      intro hrep
      exact hk2 (List.any_eq_true.mpr ⟨i2, hi2, by simp [hi2id, hrep]⟩)
  · intro hmem
    rw [Db.deleteRepoCascade, List.mem_filter, decide_eq_true_eq] at hmem
    exact hmem.2 rfl
  · intro i hi
    rw [Db.deleteRepoCascade, List.mem_filter, decide_eq_true_eq] at hi
    exact hi.2
  · intro m hm
    rw [Db.deleteRepoCascade, List.mem_filter, decide_eq_true_eq] at hm
    exact hm.2

/-- C10, witnessed on `db0`: deleting repository 1 empties every table and
keeps integrity. -/
theorem C10_delete_repo_cascade_witness :
    (db0.deleteRepoCascade 1).integrity ∧ (1 : Int) ∉ (db0.deleteRepoCascade 1).repos := by
  have h := C10_delete_repo_cascade db0 1 (by decide)
  exact ⟨h.1, h.2.1⟩

end SoftServe
